import Mathlib

/-!
Verification of the Exhibition Lead Capture System's drip-campaign engine and
inbound-message router, as a shallow embedding of the Python source
(src/backend/app).  Machine timestamps are modelled as minutes since the Unix
epoch (`Nat`); a calendar day is 1440 minutes, so `date(now)` is `now / 1440`.
SQL tables become Lean lists of records; `UPDATE ... WHERE` becomes `List.map`
with a guard; `SELECT ... WHERE` becomes `List.filter`; IDENTITY columns become
explicit `next*Id` counters threaded through the state.
-/

namespace ELCS

/-- Substring containment, Python's `pat in s`. -/
def strContains (s pat : String) : Bool :=
  decide (pat.toList <:+: s.toList)

/-- Python truthiness of an `Optional[int]` (`if assignment_id:`):
`None` and `0` are falsy. -/
def optTruthy : Option Nat → Bool
  | none => false
  | some n => n != 0

/-- Python truthiness of an `Optional[str]` (`if phone:`):
`None` and the empty string are falsy. -/
def strTruthy : Option String → Bool
  | none => false
  | some s => s != ""

/-- The digit characters of a string (`re.sub(r"[^\d]", "", s)`). -/
def digitsOf (s : String) : String :=
  String.mk (s.toList.filter Char.isDigit)

/-- Python `s.split(sep)` for a one-character separator, over the character
list.  (`String.splitOn` is not used because it does not reduce inside the
kernel; every split in the source uses a one-character separator.) -/
def splitChar (sep : Char) : List Char → List (List Char)
  | [] => [[]]
  | c :: rest =>
    let r := splitChar sep rest
    if c == sep then [] :: r
    else
      match r with
      | [] => [[c]]
      | h :: t => (c :: h) :: t

/-- Python `s.split(sep)` returning strings. -/
def strSplitChar (s : String) (sep : Char) : List String :=
  (splitChar sep s.toList).map String.mk

/-- Python `s.lower()`. -/
def strToLower (s : String) : String :=
  String.mk (s.toList.map Char.toLower)

/-- Python `s.startswith(pre)`. -/
def strStartsWith (s pre : String) : Bool :=
  pre.toList.isPrefixOf s.toList

/-- Whether Python `int(s)` succeeds without raising on the strings this code
feeds it (no sign, no surrounding whitespace): nonempty and all digits. -/
def strIsNat (s : String) : Bool :=
  !s.toList.isEmpty && s.toList.all Char.isDigit

/-- Python `int(s)` on such a string; `int()` raising is modelled by the
`default` (theorems that depend on the parse restrict to `strIsNat` inputs
via `wellFormedSendTime`). -/
def strToNatD (s : String) (default : Nat) : Nat :=
  if strIsNat s then s.toList.foldl (fun n c => n * 10 + (c.toNat - 48)) 0
  else default

/-- Model of `LeadDripAssignments.Status` values used by drip_repo.py. -/
inductive AStatus where
  | active
  | paused
  | stopped
  deriving DecidableEq, Repr

/-- Model of `ScheduledDripMessages.Status` values used by drip_repo.py. -/
inductive MStatus where
  | pending
  | sent
  | failed
  | cancelled
  | skipped
  deriving DecidableEq, Repr

/-- Model of `DripMessages.SendTime`: the column may hold an "HH:MM" string or a SQL
time value (drip_repo.py branches on `isinstance(send_time, str)`). -/
inductive SendTime where
  | str (s : String)
  | timeVal (hour minute : Nat)
  deriving DecidableEq, Repr

/-- A row of `DripMessages` (a slot of a drip template). -/
structure DripMessage where
  dripMessageId : Nat
  dripId : Nat
  messageId : Nat
  dayNumber : Nat
  sendTime : SendTime
  isActive : Bool
  deriving DecidableEq, Repr

/-- A row of `LeadDripAssignments`. -/
structure Assignment where
  assignmentId : Nat
  leadId : Nat
  dripId : Nat
  status : AStatus
  startedAt : Option Nat
  pausedAt : Option Nat
  stoppedAt : Option Nat
  deriving DecidableEq, Repr

/-- A row of `ScheduledDripMessages`. -/
structure SchedMsg where
  scheduledId : Nat
  assignmentId : Nat
  leadId : Nat
  dripMessageId : Nat
  messageId : Nat
  scheduledAt : Nat
  status : MStatus
  sentAt : Option Nat
  waMessageId : Option String
  errorMessage : Option String
  deriving DecidableEq, Repr

/-- The columns of `Leads` read by the drip dispatcher, the follow-up worker
and the identity resolver. -/
structure Lead where
  leadId : Nat
  phone : Option String
  name : Option String
  company : Option String
  whatsAppConfirmed : Bool
  statusCode : String
  deriving DecidableEq, Repr

/-- The columns of `MessageMaster` read by the dispatcher. -/
structure MsgMaster where
  messageId : Nat
  messageType : String
  body : Option String
  title : Option String
  deriving DecidableEq, Repr

/-- The database state the drip engine operates on.  `nextAssignmentId` and
`nextScheduledId` model the IDENTITY columns of `LeadDripAssignments` and
`ScheduledDripMessages`. -/
structure DripDB where
  dripMessages : List DripMessage
  assignments : List Assignment
  messages : List SchedMsg
  leads : List Lead
  messageMaster : List MsgMaster
  nextAssignmentId : Nat
  nextScheduledId : Nat
  deriving Repr

/-- Model of `DripRepository.stop_drip_for_lead` (drip_repo.py lines 248-284).
With a (truthy) `assignment_id`, the assignment UPDATE is guarded by
`AssignmentId = ? AND Status = 'active'` and the message UPDATE by
`AssignmentId = ? AND Status = 'pending'`; without one, the guards are
`LeadId = ? AND Status = 'active'` and `LeadId = ? AND Status = 'pending'`.
Only rows with status `active` are ever stopped; `paused` rows are untouched.
`now` stands for `SYSUTCDATETIME()`. -/
def stopDripForLead (db : DripDB) (leadId : Nat) (assignmentId : Option Nat)
    (now : Nat) : DripDB :=
  if optTruthy assignmentId then
    let aid := assignmentId.getD 0
    { db with
      assignments := db.assignments.map fun a =>
        if a.assignmentId == aid && a.status == AStatus.active then
          { a with status := AStatus.stopped, stoppedAt := some now }
        else a,
      messages := db.messages.map fun m =>
        if m.assignmentId == aid && m.status == MStatus.pending then
          { m with status := MStatus.cancelled }
        else m }
  else
    { db with
      assignments := db.assignments.map fun a =>
        if a.leadId == leadId && a.status == AStatus.active then
          { a with status := AStatus.stopped, stoppedAt := some now }
        else a,
      messages := db.messages.map fun m =>
        if m.leadId == leadId && m.status == MStatus.pending then
          { m with status := MStatus.cancelled }
        else m }

/-- The hour/minute parse inside `apply_drip_to_lead`:
`time_parts = send_time.split(':'); hour = int(time_parts[0]);
minute = int(time_parts[1]) if len(time_parts) > 1 else 0`, or the
`.hour`/`.minute` fields of a time value.  Numeric-parse failures raise in
Python and are modelled by `getD 0`; theorems that depend on the parse carry a
well-formedness hypothesis (`wellFormedSendTime`) restricting to inputs where
the model and the source agree. -/
def parseSendTime : SendTime → Nat × Nat
  | SendTime.str s =>
    let parts := strSplitChar s ':'
    let hour := strToNatD (parts.headD "") 0
    let minute := if parts.length > 1 then strToNatD (parts.getD 1 "") 0 else 0
    (hour, minute)
  | SendTime.timeVal h m => (h, m)

/-- A `SendTime` on which the Python parse cannot raise: numeric parts and a
value `datetime.min.time().replace(hour=..., minute=...)` accepts. -/
def wellFormedSendTime : SendTime → Bool
  | SendTime.str s =>
    let parts := strSplitChar s ':'
    strIsNat (parts.headD "") &&
      (decide (parts.length ≤ 1) || strIsNat (parts.getD 1 "")) &&
      decide ((parseSendTime (SendTime.str s)).1 < 24) &&
      decide ((parseSendTime (SendTime.str s)).2 < 60)
  | SendTime.timeVal h m => decide (h < 24) && decide (m < 60)

/-- The schedule computation of `apply_drip_to_lead` (drip_repo.py lines
224-237): day 0 fires one minute from `now`; day N > 0 fires on
`date(now) + N days` at the slot's parsed time of day. -/
def computeScheduledAt (now : Nat) (dayNumber : Nat) (sendTime : SendTime) : Nat :=
  if dayNumber == 0 then
    now + 1
  else
    let hm := parseSendTime sendTime
    (now / 1440 + dayNumber) * 1440 + hm.1 * 60 + hm.2

/-- The per-slot insertion into `ScheduledDripMessages` performed by the
scheduling loop of `apply_drip_to_lead`. -/
def addScheduledMsg (aid leadId now : Nat) (db : DripDB) (dm : DripMessage) :
    DripDB :=
  let sm : SchedMsg :=
    { scheduledId := db.nextScheduledId
      assignmentId := aid
      leadId := leadId
      dripMessageId := dm.dripMessageId
      messageId := dm.messageId
      scheduledAt := computeScheduledAt now dm.dayNumber dm.sendTime
      status := MStatus.pending
      sentAt := none
      waMessageId := none
      errorMessage := none }
  { db with messages := db.messages ++ [sm],
            nextScheduledId := db.nextScheduledId + 1 }

/-- The active slots of a drip, as selected by `apply_drip_to_lead`'s
`SELECT ... FROM DripMessages dm WHERE dm.DripId = ? AND dm.IsActive = 1`.
The SQL `ORDER BY DayNumber, SendTime` only fixes the insertion order of the
scheduled rows; the model keeps the table's list order. -/
def activeSlots (db : DripDB) (dripId : Nat) : List DripMessage :=
  db.dripMessages.filter fun dm => dm.dripId == dripId && dm.isActive

/-- Model of `DripRepository.apply_drip_to_lead` (drip_repo.py lines 195-246): first
`stop_drip_for_lead(lead_id)` (no assignment id), then insert a fresh
`'active'` assignment, then insert one `'pending'` scheduled message per
active slot of the drip.  Returns the updated state and the new assignment
id. -/
def applyDripToLead (db : DripDB) (leadId dripId : Nat) (now : Nat) :
    DripDB × Nat :=
  let db1 := stopDripForLead db leadId none now
  let aid := db1.nextAssignmentId
  let asg : Assignment :=
    { assignmentId := aid, leadId := leadId, dripId := dripId
      status := AStatus.active, startedAt := some now
      pausedAt := none, stoppedAt := none }
  let db2 := { db1 with assignments := db1.assignments ++ [asg],
                        nextAssignmentId := aid + 1 }
  let db3 := (activeSlots db2 dripId).foldl (addScheduledMsg aid leadId now) db2
  (db3, aid)

/-- Model of `DripRepository.pause_drip_for_lead` (drip_repo.py lines 286-303):
flips `active` rows to `paused`, setting `PausedAt = now`. -/
def pauseDripForLead (db : DripDB) (leadId : Nat) (assignmentId : Option Nat)
    (now : Nat) : DripDB :=
  if optTruthy assignmentId then
    let aid := assignmentId.getD 0
    { db with
      assignments := db.assignments.map fun a =>
        if a.assignmentId == aid && a.status == AStatus.active then
          { a with status := AStatus.paused, pausedAt := some now }
        else a }
  else
    { db with
      assignments := db.assignments.map fun a =>
        if a.leadId == leadId && a.status == AStatus.active then
          { a with status := AStatus.paused, pausedAt := some now }
        else a }

/-- Model of `DripRepository.resume_drip_for_lead` (drip_repo.py lines 305-322):
flips `paused` rows back to `active`, clearing `PausedAt`. -/
def resumeDripForLead (db : DripDB) (leadId : Nat) (assignmentId : Option Nat) :
    DripDB :=
  if optTruthy assignmentId then
    let aid := assignmentId.getD 0
    { db with
      assignments := db.assignments.map fun a =>
        if a.assignmentId == aid && a.status == AStatus.paused then
          { a with status := AStatus.active, pausedAt := none }
        else a }
  else
    { db with
      assignments := db.assignments.map fun a =>
        if a.leadId == leadId && a.status == AStatus.paused then
          { a with status := AStatus.active, pausedAt := none }
        else a }

/-- Model of `DripRepository.get_pending_messages_to_send` (drip_repo.py lines 351-367):
`WHERE sm.Status = 'pending' AND sm.ScheduledAt <= SYSUTCDATETIME() AND
lda.Status = 'active'`, inner-joined with `MessageMaster`, `Leads` and
`LeadDripAssignments`; the three joins require a matching row to exist. -/
def getPendingMessagesToSend (db : DripDB) (now : Nat) : List SchedMsg :=
  db.messages.filter fun m =>
    m.status == MStatus.pending &&
    decide (m.scheduledAt ≤ now) &&
    (db.assignments.any fun a =>
      a.assignmentId == m.assignmentId && a.status == AStatus.active) &&
    (db.messageMaster.any fun mm => mm.messageId == m.messageId) &&
    (db.leads.any fun l => l.leadId == m.leadId)

/-- Model of `DripRepository.mark_message_sent` (drip_repo.py lines 369-378): an
unconditional UPDATE keyed only on `ScheduledId`. -/
def markMessageSent (db : DripDB) (scheduledId : Nat) (waId : Option String)
    (now : Nat) : DripDB :=
  { db with
    messages := db.messages.map fun m =>
      if m.scheduledId == scheduledId then
        { m with status := MStatus.sent, sentAt := some now, waMessageId := waId }
      else m }

/-- Model of `DripRepository.mark_message_failed` (drip_repo.py lines 380-389): an
unconditional UPDATE keyed only on `ScheduledId`. -/
def markMessageFailed (db : DripDB) (scheduledId : Nat) (err : String) :
    DripDB :=
  { db with
    messages := db.messages.map fun m =>
      if m.scheduledId == scheduledId then
        { m with status := MStatus.failed, errorMessage := some err }
      else m }

/-- Model of `DripRepository.skip_message` (drip_repo.py lines 391-400): an
unconditional UPDATE keyed only on `ScheduledId` — there is no
`Status = 'pending'` guard in the SQL. -/
def skipMessage (db : DripDB) (scheduledId : Nat) : DripDB :=
  { db with
    messages := db.messages.map fun m =>
      if m.scheduledId == scheduledId then
        { m with status := MStatus.skipped }
      else m }

/-! ## Outbound WhatsApp client (whatsapp_client.py) -/

/-- Marker check of `_is_valid_phone`: `"@lid" in phone.lower()`. -/
def hasLidMarker (phone : String) : Bool :=
  strContains (strToLower phone) "@lid"

/-- Marker check of `_is_valid_phone`: `"@newsletter" in phone.lower()`. -/
def hasNewsletterMarker (phone : String) : Bool :=
  strContains (strToLower phone) "@newsletter"

/-- Marker check of `_is_valid_phone`: `"@g.us" in phone.lower()`. -/
def hasGroupMarker (phone : String) : Bool :=
  strContains (strToLower phone) "@g.us"

/-- Model of `phone.split("@")[0] if "@" in phone else phone`. -/
def preAtPart (phone : String) : String :=
  if strContains phone "@" then (strSplitChar phone '@').headD "" else phone

/-- The digit count `_is_valid_phone` bounds: digits of the part before any
`@` suffix. -/
def digitCountPreAt (phone : String) : Nat :=
  (digitsOf (preAtPart phone)).length

/-- Model of `WhatsAppClient._is_valid_phone` (whatsapp_client.py lines 219-270):
blocks empty values, `@lid` / `@newsletter` / `@g.us` identifiers, and digit
counts outside 7..15. -/
def isValidPhone (phone : String) : Bool :=
  if phone = "" then false
  else if hasLidMarker phone then false
  else if hasNewsletterMarker phone then false
  else if hasGroupMarker phone then false
  else if digitCountPreAt phone > 15 then false
  else if digitCountPreAt phone < 7 then false
  else true

/-- Model of `WhatsAppClient._normalize_phone_for_api` (whatsapp_client.py lines
272-311): strip a JID suffix, keep digits, prefix `91` to 10-digit numbers. -/
def normalizePhoneForApi (phone : String) : String :=
  let p := if strContains phone "@" then (strSplitChar phone '@').headD "" else phone
  let clean := digitsOf p
  if clean.length == 10 then "91" ++ clean else clean

/-- The observable action of `WhatsAppClient.send_text` (whatsapp_client.py
lines 56-85): either the validation pre-check rejects (no HTTP request is
built) or a network request is issued to the normalized recipient. -/
inductive SendAction where
  | blocked (error : String)
  | network (recipient : String) (text : String)
  deriving DecidableEq, Repr

/-- Model of `WhatsAppClient.send_text`: validation before any network I/O. -/
def sendTextAction (recipient text : String) : SendAction :=
  if isValidPhone recipient then
    SendAction.network (normalizePhoneForApi recipient) text
  else
    SendAction.blocked ("Invalid phone number: " ++ recipient)

/-- The result dict of a send: `{success, message_id?, error?}`. -/
structure GwResult where
  success : Bool
  messageId : Option String
  error : Option String
  deriving DecidableEq, Repr

/-- Model of `send_text` composed with the gateway `gw` (the external HTTP call):
a blocked send returns the failure dict without invoking `gw`. -/
def runSendText (gw : String → String → GwResult) (recipient text : String) :
    GwResult :=
  match sendTextAction recipient text with
  | SendAction.blocked e => { success := false, messageId := none, error := some e }
  | SendAction.network r t => gw r t

/-! ## Drip dispatch run (`POST /drip/process`, drip_router.py lines 322-384) -/

/-- The text handed to `send_text` for a due row, including the
`{{name}}`/`{{company}}` substitution.  `str.replace` with a `None`
replacement raises `TypeError`, which the loop's `except` turns into a
`mark_message_failed`; that path is the `Except.error` case. -/
def resolveSendText (mm : MsgMaster) (l : Lead) : Except String String :=
  if strTruthy mm.body then
    match l.name, l.company with
    | some n, some c =>
      let rendered := ((mm.body.getD "").replace "{{name}}" n).replace "{{company}}" c
      Except.ok (if mm.messageType == "text" then rendered
                 else if rendered != "" then rendered else mm.title.getD "")
    | _, _ => Except.error "TypeError: replace() argument 2 must be str"
  else
    Except.ok (if mm.messageType == "text" then "" else mm.title.getD "")

/-- The phone cleaning of the dispatch loop: keep digits, strip a leading
`91` from 12-digit numbers, then require exactly 10 digits starting with
6/7/8/9. -/
def cleanDispatchPhone (raw : String) : Option String :=
  let phone := digitsOf raw
  let phone := if phone.length == 12 && strStartsWith phone "91" then
    String.mk (phone.toList.drop 2) else phone
  if phone.length == 10 &&
      (phone.toList.headD ' ' == '6' || phone.toList.headD ' ' == '7' ||
       phone.toList.headD ' ' == '8' || phone.toList.headD ' ' == '9') then
    some phone
  else none

/-- One iteration of the dispatch loop of `process_pending_messages`.
`db0` is the state the due rows (with their joined lead and message columns)
were read from; marks are applied to the accumulator state.  The loop's
re-check `msg.get('AssignmentStatus') != 'active'` can never fire because the
query's WHERE clause already requires `lda.Status = 'active'`, so it is not a
branch of the model. -/
def dispatchOne (db0 : DripDB) (gw : String → String → GwResult) (now : Nat)
    (acc : DripDB × Nat × Nat) (m : SchedMsg) : DripDB × Nat × Nat :=
  let db := acc.1
  let processed := acc.2.1
  let failed := acc.2.2
  match db0.leads.find? (fun l => l.leadId == m.leadId),
        db0.messageMaster.find? (fun mm => mm.messageId == m.messageId) with
  | some l, some mm =>
    if strTruthy l.phone then
      match cleanDispatchPhone (l.phone.getD "") with
      | some phone =>
        match resolveSendText mm l with
        | Except.ok text =>
          let r := runSendText gw phone text
          if r.success then
            (markMessageSent db m.scheduledId r.messageId now, processed + 1, failed)
          else
            (markMessageFailed db m.scheduledId (r.error.getD "Unknown error"),
             processed, failed + 1)
        | Except.error e =>
          (markMessageFailed db m.scheduledId e, processed, failed + 1)
      | none =>
        (markMessageFailed db m.scheduledId
          ("Invalid phone: " ++ digitsOf (l.phone.getD "")), processed, failed + 1)
    else
      (markMessageFailed db m.scheduledId "No phone number", processed, failed + 1)
  | _, _ => (db, processed, failed)

/-- Model of `process_pending_messages` (drip_router.py lines 322-384): fetch the due
rows once, then loop, marking each row sent or failed.  Returns the final
state and the `(processed, failed)` counters. -/
def processPendingMessages (db : DripDB) (now : Nat)
    (gw : String → String → GwResult) : DripDB × Nat × Nat :=
  (getPendingMessagesToSend db now).foldl (dispatchOne db gw now) (db, 0, 0)

/-- Model of `POST /drip/apply` responses (drip_router.py lines 251-265). -/
inductive ApplyResponse where
  | success (assignmentId : Nat)
  | httpError (statusCode : Nat) (detail : String)
  deriving DecidableEq, Repr

/-- The `/drip/apply` endpoint: it calls `apply_drip_to_lead` and returns the
new assignment id with `success: True`.  The source has no check on the
template's slots — the only error branch is the generic `except` re-raised as
HTTP 500, which the pure repository model never triggers. -/
def applyEndpoint (db : DripDB) (leadId dripId now : Nat) :
    ApplyResponse × DripDB :=
  let r := applyDripToLead db leadId dripId now
  (ApplyResponse.success r.2, r.1)

/-! ## Sender identity resolution (whatsapp_service.py, employees_repo.py,
leads_repo.py) -/

/-- The columns of `Employees` read by `find_employee_by_phone`. -/
structure Employee where
  employeeId : Nat
  phone : String
  isActive : Bool
  deriving DecidableEq, Repr

/-- Model of `EmployeesRepository.find_employee_by_phone` (employees_repo.py lines
13-55): exact match (with `IsActive = 1`), then, for a 12-digit number with a
leading `91`, the number without the country code, then, for a 10-digit
number without it, the number with `91` prefixed. -/
def findEmployeeByPhone (employees : List Employee) (phone : String) :
    Option Employee :=
  let q := fun (p : String) =>
    employees.find? fun e => e.phone == p && e.isActive
  match q phone with
  | some e => some e
  | none =>
    if strStartsWith phone "91" && phone.length == 12 then
      q (String.mk (phone.toList.drop 2))
    else if !strStartsWith phone "91" && phone.length == 10 then
      q ("91" ++ phone)
    else none

/-- SQL `REPLACE(REPLACE(p, '+', ''), ' ', '')`. -/
def sqlPhoneNorm (p : String) : String :=
  String.mk (p.toList.filter fun c => !(c == '+' || c == ' '))

/-- SQL `RIGHT(s, n)` (the whole string when it is shorter than `n`). -/
def sqlRight (s : String) (n : Nat) : String :=
  String.mk (s.toList.drop (s.toList.length - n))

/-- Model of `LeadsRepository.find_lead_by_phone` (leads_repo.py lines 222-247): clean
to digits, keep the last 10, then take the first lead (the list is ordered as
the query's `ORDER BY CreatedAt DESC`) whose stored phone equals the raw
input, the cleaned value, or `+91` + cleaned, or whose normalized last 10
characters equal the cleaned value.  A `NULL` stored phone matches nothing. -/
def findLeadByPhone (leads : List Lead) (phone : String) : Option Lead :=
  let cleaned0 := digitsOf phone
  let cleaned := if cleaned0.length ≥ 10 then sqlRight cleaned0 10 else cleaned0
  leads.find? fun l =>
    match l.phone with
    | none => false
    | some p =>
      p == phone || p == cleaned || p == "+91" ++ cleaned ||
        sqlRight (sqlPhoneNorm p) 10 == cleaned

/-- Model of `LeadsRepository.find_lead_by_partial_phone` (leads_repo.py lines
250-272): match on the last 8 digits; `None` when the input has fewer than 8
digits. -/
def findLeadByPartialPhone (leads : List Lead) (phone : String) : Option Lead :=
  let cleaned := digitsOf phone
  if cleaned.length ≥ 8 then
    let last8 := sqlRight cleaned 8
    leads.find? fun l =>
      match l.phone with
      | none => false
      | some p => sqlRight (sqlPhoneNorm p) 8 == last8
  else none

/-- The directories the identity resolver reads. -/
structure ResolveEnv where
  employees : List Employee
  leads : List Lead
  deriving Repr

/-- A resolved sender identity. -/
inductive SenderIdent where
  | employee (e : Employee)
  | lead (l : Lead)
  | newVisitor
  deriving DecidableEq, Repr

/-- The 3-step sender identification of `handle_inbound_message`
(whatsapp_service.py lines 294-330): an `@lid` sender skips all phone-based
matching (`is_employee = False`, `lead = None`); otherwise staff lookup, then
exact lead lookup, then the last-8-digits fallback. -/
def identifySender (env : ResolveEnv) (senderPhone : String) : SenderIdent :=
  if strContains senderPhone "@lid" then
    SenderIdent.newVisitor
  else
    match findEmployeeByPhone env.employees senderPhone with
    | some e => SenderIdent.employee e
    | none =>
      match findLeadByPhone env.leads senderPhone with
      | some l => SenderIdent.lead l
      | none =>
        match findLeadByPartialPhone env.leads senderPhone with
        | some l => SenderIdent.lead l
        | none => SenderIdent.newVisitor

/-- The `from`-number cleaning of `_parse_webhook` (whatsapp_service.py lines
2069-2104): drop everything from the first `@`, then keep only digits and
`+`.  The `is_lid` flag computed alongside is only printed, never returned. -/
def parsedWebhookFrom (raw : String) : String :=
  let fromNumber := if strContains raw "@" then (strSplitChar raw '@').headD "" else raw
  String.mk (fromNumber.toList.filter fun c => c.isDigit || c == '+')

/-- Outcome of `_handle_text_from_new_visitor` (whatsapp_service.py lines
676-741): the wording of the greeting is out of scope; what matters is
whether a reply is sent and to whom. -/
structure VisitorTextOutcome where
  status : String
  repliedTo : Option String
  deriving DecidableEq, Repr

/-- Model of `_handle_text_from_new_visitor`: suppress the reply when the sender JID
carries `@lid`; otherwise reply to the sender. -/
def handleTextFromNewVisitor (senderJid : String) : VisitorTextOutcome :=
  if strContains senderJid "@lid" then
    { status := "lid_detected", repliedTo := none }
  else
    { status := "instructed", repliedTo := some senderJid }

/-! ## Manual follow-up worker (followup_service.py) -/

/-- Model of `FollowUps.Status` values used by followup_service.py. -/
inductive FStatus where
  | pending
  | completed
  | cancelled
  | failed
  deriving DecidableEq, Repr

/-- A row of `FollowUps`. -/
structure FollowUp where
  followUpId : Nat
  leadId : Nat
  actionType : String
  scheduledAt : Nat
  status : FStatus
  completedAt : Option Nat
  deriving DecidableEq, Repr

/-- The state the follow-up worker operates on. -/
structure FollowUpDB where
  followups : List FollowUp
  leads : List Lead
  deriving Repr

/-- The methods defined on `class WhatsAppService` (whatsapp_service.py).
`send_text_message` is not among them. -/
def whatsAppServiceMethods : List String :=
  ["send_lead_confirmation", "send_employee_greeting",
   "_build_confirmation_message", "_build_employee_greeting_message",
   "handle_inbound_message", "_save_media_file", "_handle_voice_note",
   "_handle_media_from_lead", "_handle_text_from_new_visitor",
   "_detect_hindi_script", "_handle_text_response", "_process_demo_request",
   "_process_meeting_request", "_process_problem_report",
   "_process_requirement", "_handle_qr_submission", "_parse_webhook"]

/-- A Python attribute access `whatsapp_service.<name>(...)`: raises
`AttributeError` when the class does not define the method. -/
def callWhatsAppServiceMethod (name : String) : Except String Unit :=
  if whatsAppServiceMethods.contains name then Except.ok ()
  else Except.error ("AttributeError: WhatsAppService has no attribute " ++ name)

/-- The three canned reminder variants (24h / 72h / 120h tiers). -/
inductive ReminderVariant where
  | h24
  | h72
  | h120
  deriving DecidableEq, Repr

/-- Model of `drip_number = int(action_type.split('_')[1]) if 'drip_' in action_type
else 1` (followup_service.py line 170). -/
def dripNumberOf (actionType : String) : Nat :=
  if strContains actionType "drip_" then
    strToNatD ((strSplitChar actionType '_').getD 1 "") 0
  else 1

/-- Variant selection of `_send_drip_message`: drip 1 → 24h wording, drip 2 →
72h wording, anything else → 120h wording.  (The literal message bodies are
presentation and out of scope.) -/
def reminderVariantOf (n : Nat) : ReminderVariant :=
  if n == 1 then ReminderVariant.h24
  else if n == 2 then ReminderVariant.h72
  else ReminderVariant.h120

/-- The due-and-eligible query of `process_pending_followups`
(followup_service.py lines 123-135): `Status = 'pending'`, `ScheduledAt <=
now`, joined lead with `WhatsAppConfirmed = 0 AND StatusCode != 'confirmed'`. -/
def duePendingFollowups (fdb : FollowUpDB) (now : Nat) :
    List (FollowUp × Lead) :=
  fdb.followups.filterMap fun f =>
    if f.status == FStatus.pending && decide (f.scheduledAt ≤ now) then
      match fdb.leads.find? (fun l => l.leadId == f.leadId) with
      | some l =>
        if !l.whatsAppConfirmed && l.statusCode != "confirmed" then
          some (f, l)
        else none
      | none => none
    else none

/-- Model of `_send_drip_message` (followup_service.py lines 167-186): pick the
variant, then, when the lead has a (truthy) phone, call
`whatsapp_service.send_text_message` — an attribute that does not exist, so
the call raises before any message leaves.  Returns the send that took place,
if any. -/
def sendDripMessage (l : Lead) (actionType : String) :
    Except String (Option (String × ReminderVariant)) :=
  let v := reminderVariantOf (dripNumberOf actionType)
  if strTruthy l.phone then
    match callWhatsAppServiceMethod "send_text_message" with
    | Except.ok _ => Except.ok (some (l.phone.getD "", v))
    | Except.error e => Except.error e
  else Except.ok none

/-- Model of `process_pending_followups` (followup_service.py lines 114-165): for each
due row, attempt the send; mark `completed` (with `CompletedAt = now`) and
count it when nothing was raised, mark `failed` when the send raised.
Returns the state, the `processed` counter and the log of sends that actually
happened. -/
def processPendingFollowups (fdb : FollowUpDB) (now : Nat) :
    FollowUpDB × Nat × List (String × ReminderVariant) :=
  (duePendingFollowups fdb now).foldl
    (fun acc fl =>
      let db := acc.1
      let processed := acc.2.1
      let sends := acc.2.2
      match sendDripMessage fl.2 fl.1.actionType with
      | Except.ok r =>
        ({ db with
           followups := db.followups.map fun g =>
             if g.followUpId == fl.1.followUpId then
               { g with status := FStatus.completed, completedAt := some now }
             else g },
         processed + 1, sends ++ r.toList)
      | Except.error _ =>
        ({ db with
           followups := db.followups.map fun g =>
             if g.followUpId == fl.1.followUpId then
               { g with status := FStatus.failed }
             else g },
         processed, sends))
    (fdb, 0, [])

/-! ## Helper lemmas -/

/-- Model of `stop_drip_for_lead` without an assignment id: the lead-keyed UPDATE pair. -/
theorem stopDripForLead_none (db : DripDB) (lid now : Nat) :
    stopDripForLead db lid none now =
      { db with
        assignments := db.assignments.map fun a =>
          if a.leadId == lid && a.status == AStatus.active then
            { a with status := AStatus.stopped, stoppedAt := some now }
          else a,
        messages := db.messages.map fun m =>
          if m.leadId == lid && m.status == MStatus.pending then
            { m with status := MStatus.cancelled }
          else m } := rfl

theorem stopDripForLead_dripMessages (db : DripDB) (lid : Nat)
    (aid : Option Nat) (now : Nat) :
    (stopDripForLead db lid aid now).dripMessages = db.dripMessages := by
  unfold stopDripForLead
  split <;> rfl

theorem stopDripForLead_nextAssignmentId (db : DripDB) (lid : Nat)
    (aid : Option Nat) (now : Nat) :
    (stopDripForLead db lid aid now).nextAssignmentId = db.nextAssignmentId := by
  unfold stopDripForLead
  split <;> rfl

theorem stopDripForLead_leads (db : DripDB) (lid : Nat) (aid : Option Nat)
    (now : Nat) :
    (stopDripForLead db lid aid now).leads = db.leads := by
  unfold stopDripForLead
  split <;> rfl

theorem stopDripForLead_messageMaster (db : DripDB) (lid : Nat)
    (aid : Option Nat) (now : Nat) :
    (stopDripForLead db lid aid now).messageMaster = db.messageMaster := by
  unfold stopDripForLead
  split <;> rfl

/-- The scheduling loop of `apply_drip_to_lead` does not touch the
assignment table or the other tables. -/
theorem foldl_addScheduledMsg_assignments (slots : List DripMessage)
    (aid lid now : Nat) :
    ∀ db : DripDB,
      (slots.foldl (addScheduledMsg aid lid now) db).assignments =
        db.assignments := by
  induction slots with
  | nil => intro db; rfl
  | cons dm rest ih =>
    intro db
    simpa [addScheduledMsg] using ih (addScheduledMsg aid lid now db dm)

theorem foldl_addScheduledMsg_dripMessages (slots : List DripMessage)
    (aid lid now : Nat) :
    ∀ db : DripDB,
      (slots.foldl (addScheduledMsg aid lid now) db).dripMessages =
        db.dripMessages := by
  induction slots with
  | nil => intro db; rfl
  | cons dm rest ih =>
    intro db
    simpa [addScheduledMsg] using ih (addScheduledMsg aid lid now db dm)

/-- The rows the scheduling loop inserts, starting from id `k`: one per slot,
`'pending'`, owned by `aid`/`lid`. -/
def scheduledRowsFrom (aid lid now : Nat) : Nat → List DripMessage → List SchedMsg
  | _, [] => []
  | k, dm :: rest =>
    { scheduledId := k
      assignmentId := aid
      leadId := lid
      dripMessageId := dm.dripMessageId
      messageId := dm.messageId
      scheduledAt := computeScheduledAt now dm.dayNumber dm.sendTime
      status := MStatus.pending
      sentAt := none
      waMessageId := none
      errorMessage := none } :: scheduledRowsFrom aid lid now (k + 1) rest

/-- The scheduling loop appends exactly `scheduledRowsFrom`. -/
theorem foldl_addScheduledMsg_messages (slots : List DripMessage)
    (aid lid now : Nat) :
    ∀ db : DripDB,
      (slots.foldl (addScheduledMsg aid lid now) db).messages =
        db.messages ++ scheduledRowsFrom aid lid now db.nextScheduledId slots := by
  induction slots with
  | nil => intro db; simp [scheduledRowsFrom]
  | cons dm rest ih =>
    intro db
    rw [List.foldl_cons, ih]
    simp only [addScheduledMsg, scheduledRowsFrom]
    rw [List.append_assoc]
    rfl

/-- Every inserted row is a pending row of the new assignment for the lead. -/
theorem mem_scheduledRowsFrom (aid lid now : Nat) :
    ∀ (k : Nat) (slots : List DripMessage) (sm : SchedMsg),
      sm ∈ scheduledRowsFrom aid lid now k slots →
      sm.assignmentId = aid ∧ sm.leadId = lid ∧ sm.status = MStatus.pending := by
  intro k slots
  induction slots generalizing k with
  | nil => intro sm h; simp [scheduledRowsFrom] at h
  | cons dm rest ih =>
    intro sm h
    simp only [scheduledRowsFrom, List.mem_cons] at h
    rcases h with h | h
    · subst h; exact ⟨rfl, rfl, rfl⟩
    · exact ih _ sm h

/-! ## C9 — outbound send validation -/

/-- The claim's blocked-recipient predicate, written as the spec states it: a
masked/channel/group marker, or a digit count below 7 or above 15 (digits of
the identifier's number part, before any `@` suffix). -/
def specBlockedRecipient (recipient : String) : Bool :=
  hasLidMarker recipient || hasNewsletterMarker recipient ||
    hasGroupMarker recipient ||
    decide (digitCountPreAt recipient < 7) ||
    decide (digitCountPreAt recipient > 15)

theorem isValidPhone_eq_not_specBlocked (p : String) :
    isValidPhone p = !specBlockedRecipient p := by
  unfold isValidPhone specBlockedRecipient
  by_cases hE : p = ""
  · subst hE
    simp only [if_pos rfl]
    have h7 : digitCountPreAt "" = 0 := by decide
    simp [h7]
  · simp only [if_neg hE]
    cases hL : hasLidMarker p <;> cases hN : hasNewsletterMarker p <;>
      cases hG : hasGroupMarker p <;>
      by_cases h15 : digitCountPreAt p > 15 <;>
      by_cases h7 : digitCountPreAt p < 7 <;>
      simp [hL, hN, hG, h15, h7]

/-- C9: a recipient carrying a masked/channel/group marker (`@lid`,
`@newsletter`, `@g.us`) or whose digit count is below 7 or above 15 is
rejected by `send_text` with a validation error and no network request is
built; every other recipient passes the pre-check and a request to the
normalized number is issued. -/
theorem sendText_validation_precheck (recipient text : String) :
    (specBlockedRecipient recipient = true →
      sendTextAction recipient text =
        SendAction.blocked ("Invalid phone number: " ++ recipient)) ∧
    (specBlockedRecipient recipient = false →
      isValidPhone recipient = true ∧
      sendTextAction recipient text =
        SendAction.network (normalizePhoneForApi recipient) text) := by
  constructor
  · intro h
    unfold sendTextAction
    rw [isValidPhone_eq_not_specBlocked, h]
    rfl
  · intro h
    have hv : isValidPhone recipient = true := by
      rw [isValidPhone_eq_not_specBlocked, h]; rfl
    exact ⟨hv, by unfold sendTextAction; rw [hv]; rfl⟩

theorem sendText_validation_precheck_witness :
    (specBlockedRecipient "919876543210@lid" = true ∧
      sendTextAction "919876543210@lid" "hi" =
        SendAction.blocked ("Invalid phone number: " ++ "919876543210@lid")) ∧
    (specBlockedRecipient "9876543210" = false ∧
      sendTextAction "9876543210" "hi" =
        SendAction.network (normalizePhoneForApi "9876543210") "hi") :=
  ⟨⟨by decide, (sendText_validation_precheck "919876543210@lid" "hi").1 (by decide)⟩,
   ⟨by decide, ((sendText_validation_precheck "9876543210" "hi").2 (by decide)).2⟩⟩

theorem stopDripForLead_nextScheduledId (db : DripDB) (lid : Nat)
    (aid : Option Nat) (now : Nat) :
    (stopDripForLead db lid aid now).nextScheduledId = db.nextScheduledId := by
  unfold stopDripForLead
  split <;> rfl

/-- Model of `apply_drip_to_lead` returns `db.nextAssignmentId` as the new id. -/
theorem applyDripToLead_snd (db : DripDB) (lid did now : Nat) :
    (applyDripToLead db lid did now).2 = db.nextAssignmentId := by
  unfold applyDripToLead
  simp [stopDripForLead_nextAssignmentId]

/-- The assignment table after `apply_drip_to_lead`: the stop sweep's result
plus the one fresh active row. -/
theorem applyDripToLead_assignments (db : DripDB) (lid did now : Nat) :
    (applyDripToLead db lid did now).1.assignments =
      (stopDripForLead db lid none now).assignments ++
        [{ assignmentId := db.nextAssignmentId, leadId := lid, dripId := did,
           status := AStatus.active, startedAt := some now,
           pausedAt := none, stoppedAt := none }] := by
  unfold applyDripToLead
  simp [foldl_addScheduledMsg_assignments, stopDripForLead_nextAssignmentId]

/-- The message table after `apply_drip_to_lead`: the stop sweep's result
plus one fresh pending row per active slot. -/
theorem applyDripToLead_messages (db : DripDB) (lid did now : Nat) :
    (applyDripToLead db lid did now).1.messages =
      (stopDripForLead db lid none now).messages ++
        scheduledRowsFrom db.nextAssignmentId lid now db.nextScheduledId
          (activeSlots db did) := by
  unfold applyDripToLead
  rw [foldl_addScheduledMsg_messages]
  simp [activeSlots, stopDripForLead_dripMessages, stopDripForLead_nextAssignmentId,
    stopDripForLead_nextScheduledId]

/-- The stop sweep never changes a message's `ScheduledId`, `AssignmentId` or
`LeadId`; the sweep's image of a message differs at most in status fields. -/
theorem stopDripForLead_messages_ids (db : DripDB) (lid : Nat)
    (aid : Option Nat) (now : Nat) :
    ∀ m' ∈ (stopDripForLead db lid aid now).messages,
      ∃ m ∈ db.messages, m'.scheduledId = m.scheduledId ∧
        m'.assignmentId = m.assignmentId ∧ m'.leadId = m.leadId := by
  intro m' hm'
  unfold stopDripForLead at hm'
  split at hm' <;>
  · simp only [List.mem_map] at hm'
    obtain ⟨m, hm, heq⟩ := hm'
    refine ⟨m, hm, ?_⟩
    subst heq
    split <;> simp

/-! ## C7 — sender identity resolution precedence -/

/-- C7: identity resolution is deterministic and precedence-ordered: for a
sender without the masked marker, a staff-directory match (as tried by
`find_employee_by_phone`: as-is, country code stripped, country code added)
decides the identity before any lead matching; when no staff matches, an
exact lead match decides it before the last-8-digits fallback can.  In
particular any directory holding an active staff phone "9876543210" resolves
"9876543210" to that employee, never to a lead. -/
theorem sender_resolution_precedence :
    (∀ (env : ResolveEnv) (p : String) (e : Employee),
      strContains p "@lid" = false →
      findEmployeeByPhone env.employees p = some e →
      identifySender env p = SenderIdent.employee e) ∧
    (∀ (env : ResolveEnv) (p : String) (l : Lead),
      strContains p "@lid" = false →
      findEmployeeByPhone env.employees p = none →
      findLeadByPhone env.leads p = some l →
      identifySender env p = SenderIdent.lead l) ∧
    (∀ (env : ResolveEnv) (e : Employee),
      e ∈ env.employees → e.phone = "9876543210" → e.isActive = true →
      ∃ e2, identifySender env "9876543210" = SenderIdent.employee e2) := by
  refine ⟨?_, ?_, ?_⟩
  · intro env p e hlid hfind
    simp [identifySender, hlid, hfind]
  · intro env p l hlid hemp hlead
    simp [identifySender, hlid, hemp, hlead]
  · intro env e hmem hphone hactive
    have hsome : (env.employees.find? fun x =>
        x.phone == "9876543210" && x.isActive).isSome = true :=
      List.find?_isSome.mpr ⟨e, hmem, by simp [hphone, hactive]⟩
    obtain ⟨e2, he2⟩ := Option.isSome_iff_exists.mp hsome
    have hfind : findEmployeeByPhone env.employees "9876543210" = some e2 := by
      simp [findEmployeeByPhone, he2]
    exact ⟨e2, by simp [identifySender, hfind, (by decide :
      strContains "9876543210" "@lid" = false)]⟩

theorem sender_resolution_precedence_witness :
    identifySender
      { employees := [{ employeeId := 1, phone := "9876543210", isActive := true }],
        leads := [{ leadId := 42, phone := some "919876543210", name := none,
                    company := none, whatsAppConfirmed := false,
                    statusCode := "new" }] }
      "9876543210" =
      SenderIdent.employee { employeeId := 1, phone := "9876543210",
                             isActive := true } :=
  sender_resolution_precedence.1
    { employees := [{ employeeId := 1, phone := "9876543210", isActive := true }],
      leads := [{ leadId := 42, phone := some "919876543210", name := none,
                  company := none, whatsAppConfirmed := false,
                  statusCode := "new" }] }
    "9876543210"
    { employeeId := 1, phone := "9876543210", isActive := true }
    (by decide) (by decide)

/-! ## C6 — masked-identifier (`@lid`) handling -/

/-- C6 (code bug): `_parse_webhook` strips everything from the first `@` and
keeps only digits and `+`, so the cleaned sender identifier can never contain
`@lid` — the router's masked-identifier guards (`"@lid" in sender_phone` in
`handle_inbound_message`, and again in `_handle_text_from_new_visitor`) test
the cleaned value and are dead code.  Concretely, for the raw masked sender
"237309945499749@lid": the parsed sender is the bare digits, the guard is
false, phone-based matching runs (resolving to a new visitor on an empty
directory), the text-from-unknown-visitor path replies to the sender, and the
outbound client's pre-check passes the 15-digit value, so the reply is
actually issued.  (The inbound row is persisted unconditionally before
identification, so the persistence half of the claim holds either way.) -/
theorem lid_sender_matched_and_replied :
    (∀ raw : String, strContains (parsedWebhookFrom raw) "@lid" = false) ∧
    parsedWebhookFrom "237309945499749@lid" = "237309945499749" ∧
    identifySender { employees := [], leads := [] } "237309945499749" =
      SenderIdent.newVisitor ∧
    handleTextFromNewVisitor "237309945499749" =
      { status := "instructed", repliedTo := some "237309945499749" } ∧
    sendTextAction "237309945499749" "Hello" =
      SendAction.network "237309945499749" "Hello" := by
  refine ⟨?_, by decide, by decide, by decide, by decide⟩
  intro raw
  unfold parsedWebhookFrom strContains
  apply decide_eq_false
  intro hinf
  have hat : '@' ∈ (String.mk ((if strContains raw "@" then
      (strSplitChar raw '@').headD "" else raw).toList.filter
      fun c => c.isDigit || c == '+')).toList :=
    hinf.subset (by decide)
  have hp := (List.mem_filter.mp hat).2
  exact absurd hp (by decide)

/-! ## C8 — manual follow-up due-processing -/

/-- A due follow-up whose lead has a phone number. -/
def c8Lead : Lead :=
  { leadId := 5, phone := some "9876543210", name := some "Asha",
    company := some "Acme", whatsAppConfirmed := false, statusCode := "new" }

/-- A due follow-up whose lead has no phone number. -/
def c8LeadNoPhone : Lead :=
  { leadId := 6, phone := none, name := none, company := none,
    whatsAppConfirmed := false, statusCode := "new" }

def c8F1 : FollowUp :=
  { followUpId := 1, leadId := 5, actionType := "drip_1", scheduledAt := 10,
    status := FStatus.pending, completedAt := none }

def c8F2 : FollowUp :=
  { followUpId := 2, leadId := 6, actionType := "drip_1", scheduledAt := 10,
    status := FStatus.pending, completedAt := none }

def c8DB : FollowUpDB :=
  { followups := [c8F1, c8F2], leads := [c8Lead, c8LeadNoPhone] }

/-- C8 (code bug): `_send_drip_message` calls
`whatsapp_service.send_text_message`, a method `WhatsAppService` does not
define, so the call raises `AttributeError` before anything is sent.  On a
due, eligible follow-up whose lead has a phone, the worker therefore marks
the row `failed` and sends nothing — never `completed` after a successful
send as the claim states — and a due follow-up whose lead has no phone is
marked `completed` although nothing was sent; the `processed` counter counts
only the latter. -/
theorem followup_worker_send_method_missing :
    whatsAppServiceMethods.contains "send_text_message" = false ∧
    callWhatsAppServiceMethod "send_text_message" =
      Except.error "AttributeError: WhatsAppService has no attribute send_text_message" ∧
    duePendingFollowups c8DB 100 = [(c8F1, c8Lead), (c8F2, c8LeadNoPhone)] ∧
    ((processPendingFollowups c8DB 100).1.followups.map fun f => f.status) =
      [FStatus.failed, FStatus.completed] ∧
    (processPendingFollowups c8DB 100).2.2 = [] ∧
    (processPendingFollowups c8DB 100).2.1 = 1 := by
  refine ⟨by decide, rfl, by decide, by decide, by decide, by decide⟩

/-! ## C10 — apply on a template with no active slots -/

/-- A database whose drip 1 has a single slot, and that slot is inactive. -/
def c10DB : DripDB :=
  { dripMessages := [{ dripMessageId := 1, dripId := 1, messageId := 9,
                       dayNumber := 0, sendTime := SendTime.str "10:00",
                       isActive := false }],
    assignments := [], messages := [], leads := [], messageMaster := [],
    nextAssignmentId := 1, nextScheduledId := 1 }

/-- C10 counterexample: applying drip 1 (which has no active slots) to lead 7
does not fail with `NotFound` — the endpoint answers `success` with the new
assignment id, and the lead is left with an active assignment having zero
scheduled messages.  Neither `apply_drip_to_lead` nor the `/drip/apply`
route inspects the slot list, so no error path exists for this case. -/
theorem apply_empty_template_no_notfound :
    (applyEndpoint c10DB 7 1 100).1 = ApplyResponse.success 1 ∧
    (applyEndpoint c10DB 7 1 100).2.messages = [] ∧
    (applyEndpoint c10DB 7 1 100).2.assignments =
      [{ assignmentId := 1, leadId := 7, dripId := 1,
         status := AStatus.active, startedAt := some 100,
         pausedAt := none, stoppedAt := none }] := by
  refine ⟨by decide, by decide, by decide⟩

/-- C10 (amended): `apply(leadId, templateId)` on a template with no active
slots does not report any error: the endpoint returns success with the fresh
assignment id, the lead receives an active assignment, and no scheduled
message belongs to that assignment. -/
theorem apply_without_active_slots_succeeds (db : DripDB) (lid did now : Nat)
    (hWF : ∀ m ∈ db.messages, m.assignmentId < db.nextAssignmentId)
    (hslots : activeSlots db did = []) :
    (applyEndpoint db lid did now).1 = ApplyResponse.success db.nextAssignmentId ∧
    (∃ a ∈ (applyEndpoint db lid did now).2.assignments,
      a.assignmentId = db.nextAssignmentId ∧ a.leadId = lid ∧
      a.status = AStatus.active ∧ a.startedAt = some now) ∧
    (∀ m ∈ (applyEndpoint db lid did now).2.messages,
      m.assignmentId ≠ db.nextAssignmentId) := by
  have hresp : (applyEndpoint db lid did now).1 =
      ApplyResponse.success db.nextAssignmentId := by
    show ApplyResponse.success (applyDripToLead db lid did now).2 = _
    rw [applyDripToLead_snd]
  refine ⟨hresp, ?_, ?_⟩
  · refine ⟨{ assignmentId := db.nextAssignmentId, leadId := lid, dripId := did,
              status := AStatus.active, startedAt := some now,
              pausedAt := none, stoppedAt := none }, ?_, rfl, rfl, rfl, rfl⟩
    show _ ∈ (applyDripToLead db lid did now).1.assignments
    rw [applyDripToLead_assignments]
    simp
  · intro m hm
    replace hm : m ∈ (applyDripToLead db lid did now).1.messages := hm
    rw [applyDripToLead_messages, hslots] at hm
    simp only [scheduledRowsFrom, List.append_nil] at hm
    obtain ⟨m0, hm0, _, haid, _⟩ := stopDripForLead_messages_ids db lid none now m hm
    have := hWF m0 hm0
    omega

theorem apply_without_active_slots_succeeds_witness :
    (applyEndpoint c10DB 7 1 100).1 = ApplyResponse.success c10DB.nextAssignmentId ∧
    (∃ a ∈ (applyEndpoint c10DB 7 1 100).2.assignments,
      a.assignmentId = c10DB.nextAssignmentId ∧ a.leadId = 7 ∧
      a.status = AStatus.active ∧ a.startedAt = some 100) ∧
    (∀ m ∈ (applyEndpoint c10DB 7 1 100).2.messages,
      m.assignmentId ≠ c10DB.nextAssignmentId) :=
  apply_without_active_slots_succeeds c10DB 7 1 100 (by decide) (by decide)

/-! ## C5 — message status transitions -/

def c5DB : DripDB :=
  { dripMessages := [], assignments := [],
    messages := [{ scheduledId := 1, assignmentId := 1, leadId := 7,
                   dripMessageId := 1, messageId := 1, scheduledAt := 10,
                   status := MStatus.sent, sentAt := some 5,
                   waMessageId := some "w1", errorMessage := none }],
    leads := [], messageMaster := [],
    nextAssignmentId := 2, nextScheduledId := 2 }

/-- C5 counterexample: `skip_message` on a message that is already terminal
(`sent`) is not a no-op — the UPDATE has no status guard, so the sent message
becomes `skipped`, violating monotonicity. -/
theorem skip_overwrites_sent_message :
    ((skipMessage c5DB 1).messages.map fun m => m.status) = [MStatus.skipped] ∧
    (c5DB.messages.map fun m => m.status) = [MStatus.sent] := by
  refine ⟨by decide, by decide⟩

/-- C5 (amended): `skip_message`, `mark_message_sent` and
`mark_message_failed` are UPDATEs keyed only on the message id, with no
status guard: they overwrite any current status, including terminal ones.
Only `stop`'s cancellation sweep is restricted to `pending` rows, so the
sweep alone leaves every non-pending message unchanged. -/
theorem message_status_updates_unguarded :
    (∀ (db : DripDB) (sid : Nat) (m : SchedMsg), m ∈ db.messages →
      m.scheduledId = sid →
      { m with status := MStatus.skipped } ∈ (skipMessage db sid).messages) ∧
    (∀ (db : DripDB) (sid now : Nat) (waId : Option String) (m : SchedMsg),
      m ∈ db.messages → m.scheduledId = sid →
      { m with status := MStatus.sent, sentAt := some now, waMessageId := waId }
        ∈ (markMessageSent db sid waId now).messages) ∧
    (∀ (db : DripDB) (sid : Nat) (err : String) (m : SchedMsg),
      m ∈ db.messages → m.scheduledId = sid →
      { m with status := MStatus.failed, errorMessage := some err }
        ∈ (markMessageFailed db sid err).messages) ∧
    (∀ (db : DripDB) (lid now : Nat) (aid : Option Nat) (m : SchedMsg),
      m ∈ db.messages → m.status ≠ MStatus.pending →
      m ∈ (stopDripForLead db lid aid now).messages) := by
  refine ⟨?_, ?_, ?_, ?_⟩
  · intro db sid m hm hsid
    subst hsid
    exact List.mem_map.mpr ⟨m, hm, by simp⟩
  · intro db sid now waId m hm hsid
    subst hsid
    exact List.mem_map.mpr ⟨m, hm, by simp⟩
  · intro db sid err m hm hsid
    subst hsid
    exact List.mem_map.mpr ⟨m, hm, by simp⟩
  · intro db lid now aid m hm hst
    unfold stopDripForLead
    split <;> exact List.mem_map.mpr ⟨m, hm, by simp [hst]⟩

theorem message_status_updates_unguarded_witness :
    ({ scheduledId := 1, assignmentId := 1, leadId := 7, dripMessageId := 1,
       messageId := 1, scheduledAt := 10, status := MStatus.skipped,
       sentAt := some 5, waMessageId := some "w1",
       errorMessage := none } : SchedMsg) ∈ (skipMessage c5DB 1).messages :=
  message_status_updates_unguarded.1 c5DB 1
    { scheduledId := 1, assignmentId := 1, leadId := 7, dripMessageId := 1,
      messageId := 1, scheduledAt := 10, status := MStatus.sent,
      sentAt := some 5, waMessageId := some "w1", errorMessage := none }
    (by decide) rfl

/-! ## C1 — at-most-one non-terminal assignment per lead -/

def c1DB : DripDB :=
  { dripMessages := [],
    assignments := [{ assignmentId := 1, leadId := 7, dripId := 3,
                      status := AStatus.paused, startedAt := some 0,
                      pausedAt := some 5, stoppedAt := none }],
    messages := [], leads := [], messageMaster := [],
    nextAssignmentId := 2, nextScheduledId := 1 }

/-- The lead's assignments with status in {active, paused}. -/
def nonTerminalAssignmentsFor (db : DripDB) (lid : Nat) : List Assignment :=
  db.assignments.filter fun a =>
    a.leadId == lid && (a.status == AStatus.active || a.status == AStatus.paused)

/-- C1 counterexample: `apply` on a lead that currently holds a *paused*
assignment does not stop it (the stop sweep is guarded by
`Status = 'active'`), so after `apply` the lead has two assignments with
status in {active, paused} — the invariant is not preserved. -/
theorem apply_on_paused_lead_two_nonterminal :
    (nonTerminalAssignmentsFor c1DB 7).length = 1 ∧
    (nonTerminalAssignmentsFor (applyDripToLead c1DB 7 3 100).1 7).length = 2 ∧
    ((applyDripToLead c1DB 7 3 100).1.assignments.map fun a => a.status) =
      [AStatus.paused, AStatus.active] := by
  refine ⟨by decide, by decide, by decide⟩

/-- C1 (amended): `apply(leadId, templateId)` stops only the lead's
assignments whose status is *active* before inserting the new active
assignment; a paused assignment survives untouched, so the at-most-one
invariant over {active, paused} holds only for leads that do not hold a
paused assignment when `apply` runs. -/
theorem apply_stops_only_active_assignments (db : DripDB) (lid did now : Nat) :
    (∀ a ∈ db.assignments, a.leadId = lid → a.status = AStatus.active →
      { a with status := AStatus.stopped, stoppedAt := some now }
        ∈ (applyDripToLead db lid did now).1.assignments) ∧
    (∀ a ∈ db.assignments, a.status = AStatus.paused →
      a ∈ (applyDripToLead db lid did now).1.assignments) ∧
    ({ assignmentId := db.nextAssignmentId, leadId := lid, dripId := did,
       status := AStatus.active, startedAt := some now, pausedAt := none,
       stoppedAt := none } : Assignment)
      ∈ (applyDripToLead db lid did now).1.assignments := by
  refine ⟨?_, ?_, ?_⟩
  · intro a ha hlid hact
    rw [applyDripToLead_assignments]
    refine List.mem_append_left _ ?_
    rw [stopDripForLead_none]
    exact List.mem_map.mpr ⟨a, ha, by simp [hlid, hact]⟩
  · intro a ha hpaused
    rw [applyDripToLead_assignments]
    refine List.mem_append_left _ ?_
    rw [stopDripForLead_none]
    exact List.mem_map.mpr ⟨a, ha, by simp [hpaused]⟩
  · rw [applyDripToLead_assignments]
    exact List.mem_append_right _ (by simp)

theorem apply_stops_only_active_assignments_witness :
    ({ assignmentId := 1, leadId := 7, dripId := 3, status := AStatus.paused,
       startedAt := some 0, pausedAt := some 5, stoppedAt := none } : Assignment)
      ∈ (applyDripToLead c1DB 7 3 100).1.assignments :=
  (apply_stops_only_active_assignments c1DB 7 3 100).2.1
    { assignmentId := 1, leadId := 7, dripId := 3, status := AStatus.paused,
      startedAt := some 0, pausedAt := some 5, stoppedAt := none }
    (by decide) rfl

/-! ## C2 — stop semantics -/

def c2DB : DripDB :=
  { dripMessages := [],
    assignments := [{ assignmentId := 1, leadId := 7, dripId := 3,
                      status := AStatus.paused, startedAt := some 0,
                      pausedAt := some 5, stoppedAt := none }],
    messages := [{ scheduledId := 1, assignmentId := 1, leadId := 7,
                   dripMessageId := 1, messageId := 1, scheduledAt := 50,
                   status := MStatus.pending, sentAt := none,
                   waMessageId := none, errorMessage := none }],
    leads := [], messageMaster := [],
    nextAssignmentId := 2, nextScheduledId := 2 }

/-- C2 counterexample: `stop(leadId)` with no assignment id leaves a *paused*
assignment paused (the UPDATE is guarded by `Status = 'active'`, so neither
`status` nor `stoppedAt` changes), while the lead's pending message is
cancelled even though its owning assignment was not stopped. -/
theorem stop_leaves_paused_assignment_paused :
    ((stopDripForLead c2DB 7 none 60).assignments.map fun a => a.status) =
      [AStatus.paused] ∧
    ((stopDripForLead c2DB 7 none 60).assignments.map fun a => a.stoppedAt) =
      [none] ∧
    ((stopDripForLead c2DB 7 none 60).messages.map fun m => m.status) =
      [MStatus.cancelled] := by
  refine ⟨by decide, by decide, by decide⟩

/-- C2 (amended): `stop(leadId)` with no assignment id sets
`status = stopped, stoppedAt = now` on the lead's *active* assignments only
(paused assignments are left as they are), and flips every pending
`ScheduledMessage` *of the lead* — regardless of which assignment owns it —
to cancelled.  In particular `apply` immediately followed by `stop` leaves
zero pending messages for the new assignment: they are all cancelled. -/
theorem stop_stops_active_cancels_lead_pending :
    (∀ (db : DripDB) (lid now : Nat), ∀ a ∈ db.assignments,
      a.leadId = lid → a.status = AStatus.active →
      { a with status := AStatus.stopped, stoppedAt := some now }
        ∈ (stopDripForLead db lid none now).assignments) ∧
    (∀ (db : DripDB) (lid now : Nat), ∀ a ∈ db.assignments,
      a.status = AStatus.paused →
      a ∈ (stopDripForLead db lid none now).assignments) ∧
    (∀ (db : DripDB) (lid now : Nat), ∀ m ∈ db.messages,
      m.leadId = lid → m.status = MStatus.pending →
      { m with status := MStatus.cancelled }
        ∈ (stopDripForLead db lid none now).messages) ∧
    (∀ (db : DripDB) (lid did now now2 : Nat),
      (∀ m ∈ db.messages, m.assignmentId < db.nextAssignmentId) →
      ∀ m ∈ (stopDripForLead (applyDripToLead db lid did now).1 lid none
              now2).messages,
        m.assignmentId = (applyDripToLead db lid did now).2 →
        m.status = MStatus.cancelled) := by
  refine ⟨?_, ?_, ?_, ?_⟩
  · intro db lid now a ha hlid hact
    rw [stopDripForLead_none]
    exact List.mem_map.mpr ⟨a, ha, by simp [hlid, hact]⟩
  · intro db lid now a ha hpaused
    rw [stopDripForLead_none]
    exact List.mem_map.mpr ⟨a, ha, by simp [hpaused]⟩
  · intro db lid now m hm hlid hpend
    rw [stopDripForLead_none]
    exact List.mem_map.mpr ⟨m, hm, by simp [hlid, hpend]⟩
  · intro db lid did now now2 hWF m hm haid
    rw [applyDripToLead_snd] at haid
    rw [stopDripForLead_none] at hm
    simp only [List.mem_map] at hm
    obtain ⟨m0, hm0, heq⟩ := hm
    have haid0 : m0.assignmentId = db.nextAssignmentId := by
      by_cases hg : (m0.leadId == lid && m0.status == MStatus.pending) = true
      · rw [if_pos hg] at heq; rw [← heq] at haid; exact haid
      · rw [if_neg hg] at heq; rw [← heq] at haid; exact haid
    rw [applyDripToLead_messages] at hm0
    rcases List.mem_append.mp hm0 with hold | hnew
    · obtain ⟨m1, hm1, _, hids, _⟩ :=
        stopDripForLead_messages_ids db lid none now m0 hold
      have := hWF m1 hm1
      omega
    · obtain ⟨_, hlid0, hpend0⟩ :=
        mem_scheduledRowsFrom db.nextAssignmentId lid now db.nextScheduledId
          (activeSlots db did) m0 hnew
      have hg : (m0.leadId == lid && m0.status == MStatus.pending) = true := by
        simp [hlid0, hpend0]
      rw [if_pos hg] at heq
      rw [← heq]

theorem stop_stops_active_cancels_lead_pending_witness :
    ({ assignmentId := 1, leadId := 7, dripId := 3, status := AStatus.paused,
       startedAt := some 0, pausedAt := some 5, stoppedAt := none } : Assignment)
      ∈ (stopDripForLead c2DB 7 none 60).assignments ∧
    ({ scheduledId := 1, assignmentId := 1, leadId := 7, dripMessageId := 1,
       messageId := 1, scheduledAt := 50, status := MStatus.cancelled,
       sentAt := none, waMessageId := none, errorMessage := none } : SchedMsg)
      ∈ (stopDripForLead c2DB 7 none 60).messages :=
  ⟨stop_stops_active_cancels_lead_pending.2.1 c2DB 7 60
    { assignmentId := 1, leadId := 7, dripId := 3, status := AStatus.paused,
      startedAt := some 0, pausedAt := some 5, stoppedAt := none }
    (by decide) rfl,
   stop_stops_active_cancels_lead_pending.2.2.1 c2DB 7 60
    { scheduledId := 1, assignmentId := 1, leadId := 7, dripMessageId := 1,
      messageId := 1, scheduledAt := 50, status := MStatus.pending,
      sentAt := none, waMessageId := none, errorMessage := none }
    (by decide) rfl rfl⟩

/-! ## C4 — slot materialization and schedule computation -/

/-- The claim's schedule, written as the spec states it: a slot with
`dayOffset 0` fires at `now + 1` minute; a slot with `dayOffset N > 0` fires
on `date(now) + N days` (days are 1440 minutes) at the slot's time of day,
where an "HH:MM" string is parsed into hour and minute and the minute
defaults to 0 when absent (`parseSendTime`). -/
def specScheduledAt (now : Nat) (dm : DripMessage) : Nat :=
  if dm.dayNumber = 0 then now + 1
  else (now / 1440 + dm.dayNumber) * 1440 +
    60 * (parseSendTime dm.sendTime).1 + (parseSendTime dm.sendTime).2

/-- The rows the claim expects `apply` to materialize: one pending message
per slot, scheduled per `specScheduledAt`, ids assigned in slot order. -/
def specRows (aid lid now : Nat) : Nat → List DripMessage → List SchedMsg
  | _, [] => []
  | k, dm :: rest =>
    { scheduledId := k
      assignmentId := aid
      leadId := lid
      dripMessageId := dm.dripMessageId
      messageId := dm.messageId
      scheduledAt := specScheduledAt now dm
      status := MStatus.pending
      sentAt := none
      waMessageId := none
      errorMessage := none } :: specRows aid lid now (k + 1) rest

theorem computeScheduledAt_eq_spec (now : Nat) (dm : DripMessage) :
    computeScheduledAt now dm.dayNumber dm.sendTime = specScheduledAt now dm := by
  unfold computeScheduledAt specScheduledAt
  by_cases h : dm.dayNumber = 0
  · simp [h]
  · simp only [h, beq_iff_eq, if_neg h, if_false]
    omega

theorem scheduledRowsFrom_eq_specRows (aid lid now : Nat) :
    ∀ (k : Nat) (slots : List DripMessage),
      scheduledRowsFrom aid lid now k slots = specRows aid lid now k slots := by
  intro k slots
  induction slots generalizing k with
  | nil => rfl
  | cons dm rest ih =>
    simp only [scheduledRowsFrom, specRows, computeScheduledAt_eq_spec, ih]

/-- C4: `apply(leadId, templateId)` at `now` materializes exactly one pending
`ScheduledMessage` per active slot of the template, scheduled as the spec
states: `now + 1` minute for `dayOffset 0`, and `date(now) + N days` at the
parsed "HH:MM" time (minute defaulting to 0 when absent) for `dayOffset N >
0`.  `hT` restricts to slots whose stored time the Python parse accepts (on
other slots `int()`/`time.replace` raise and the request aborts). -/
theorem apply_schedules_one_message_per_active_slot (db : DripDB)
    (lid did now : Nat)
    (hWF : ∀ m ∈ db.messages, m.assignmentId < db.nextAssignmentId)
    (_hT : ∀ dm ∈ activeSlots db did, wellFormedSendTime dm.sendTime = true) :
    ((applyDripToLead db lid did now).1.messages.filter
        fun m => m.assignmentId == (applyDripToLead db lid did now).2) =
      specRows (applyDripToLead db lid did now).2 lid now db.nextScheduledId
        (activeSlots db did) := by
  simp only [applyDripToLead_snd]
  rw [applyDripToLead_messages, List.filter_append]
  have hold : ((stopDripForLead db lid none now).messages.filter
      fun m => m.assignmentId == db.nextAssignmentId) = [] := by
    rw [List.filter_eq_nil_iff]
    intro m hm
    obtain ⟨m1, hm1, _, hids, _⟩ :=
      stopDripForLead_messages_ids db lid none now m hm
    have := hWF m1 hm1
    simp only [beq_iff_eq, hids]
    omega
  have hnew : ((scheduledRowsFrom db.nextAssignmentId lid now
      db.nextScheduledId (activeSlots db did)).filter
      fun m => m.assignmentId == db.nextAssignmentId) =
      scheduledRowsFrom db.nextAssignmentId lid now db.nextScheduledId
        (activeSlots db did) := by
    rw [List.filter_eq_self]
    intro m hm
    obtain ⟨haid, _, _⟩ :=
      mem_scheduledRowsFrom db.nextAssignmentId lid now db.nextScheduledId
        (activeSlots db did) m hm
    simp [haid]
  rw [hold, hnew, List.nil_append, scheduledRowsFrom_eq_specRows]

/-- The spec's worked scenario: a template with slots (day 0, "10:00") and
(day 1, "09:00") applied to lead 7 at 2024-01-01T12:00:00Z
(= minute 28401840 = day 19723 · 1440 + 720). -/
def c4DB : DripDB :=
  { dripMessages :=
      [{ dripMessageId := 1, dripId := 1, messageId := 11, dayNumber := 0,
         sendTime := SendTime.str "10:00", isActive := true },
       { dripMessageId := 2, dripId := 1, messageId := 12, dayNumber := 1,
         sendTime := SendTime.str "09:00", isActive := true }],
    assignments := [], messages := [], leads := [], messageMaster := [],
    nextAssignmentId := 1, nextScheduledId := 1 }

theorem apply_schedules_one_message_per_active_slot_witness :
    ((applyDripToLead c4DB 7 1 28401840).1.messages.filter
        fun m => m.assignmentId == (applyDripToLead c4DB 7 1 28401840).2) =
      specRows (applyDripToLead c4DB 7 1 28401840).2 7 28401840
        c4DB.nextScheduledId (activeSlots c4DB 1) :=
  apply_schedules_one_message_per_active_slot c4DB 7 1 28401840
    (by decide) (by decide)

/-! ## C3 — dispatch eligibility and resume -/

/-- The claim's eligibility condition: the owning assignment is active. -/
def assignmentActiveFor (db : DripDB) (m : SchedMsg) : Prop :=
  ∃ a ∈ db.assignments, a.assignmentId = m.assignmentId ∧
    a.status = AStatus.active

/-- Referential integrity of the message table's `LeadId` and `MessageId`
foreign keys (the schema's FK constraints; the due-query's inner joins are
total exactly under this assumption). -/
def refIntact (db : DripDB) : Prop :=
  ∀ m ∈ db.messages,
    (∃ l ∈ db.leads, l.leadId = m.leadId) ∧
    (∃ mm ∈ db.messageMaster, mm.messageId = m.messageId)

theorem mem_getPending_props (db : DripDB) (now : Nat) (m : SchedMsg)
    (hm : m ∈ getPendingMessagesToSend db now) :
    m ∈ db.messages ∧ m.status = MStatus.pending ∧ m.scheduledAt ≤ now ∧
      assignmentActiveFor db m := by
  unfold getPendingMessagesToSend at hm
  rw [List.mem_filter] at hm
  obtain ⟨hmem, hcond⟩ := hm
  simp only [Bool.and_eq_true, beq_iff_eq, decide_eq_true_eq,
    List.any_eq_true] at hcond
  obtain ⟨⟨⟨⟨hp, hsched⟩, ha⟩, _⟩, _⟩ := hcond
  refine ⟨hmem, hp, hsched, ?_⟩
  obtain ⟨a, hamem, h1, h2⟩ := ha
  exact ⟨a, hamem, h1, h2⟩

theorem mem_getPendingMessagesToSend_iff (db : DripDB) (now : Nat)
    (m : SchedMsg) (hRI : refIntact db) :
    m ∈ getPendingMessagesToSend db now ↔
      m ∈ db.messages ∧ m.status = MStatus.pending ∧ m.scheduledAt ≤ now ∧
        assignmentActiveFor db m := by
  constructor
  · exact mem_getPending_props db now m
  · rintro ⟨hmem, hp, hsched, a, hamem, h1, h2⟩
    obtain ⟨⟨l, hl, hleq⟩, ⟨mm, hmm, hmmeq⟩⟩ := hRI m hmem
    unfold getPendingMessagesToSend
    rw [List.mem_filter]
    refine ⟨hmem, ?_⟩
    simp only [Bool.and_eq_true, beq_iff_eq, decide_eq_true_eq,
      List.any_eq_true]
    exact ⟨⟨⟨⟨hp, hsched⟩, ⟨a, hamem, h1, h2⟩⟩, ⟨mm, hmm, hmmeq⟩⟩,
      ⟨l, hl, hleq⟩⟩

theorem mem_markMessageSent_of_ne (db : DripDB) (sid now : Nat)
    (waId : Option String) (m : SchedMsg) (hm : m ∈ db.messages)
    (hne : m.scheduledId ≠ sid) : m ∈ (markMessageSent db sid waId now).messages :=
  List.mem_map.mpr ⟨m, hm, by simp [hne]⟩

theorem mem_markMessageFailed_of_ne (db : DripDB) (sid : Nat) (err : String)
    (m : SchedMsg) (hm : m ∈ db.messages) (hne : m.scheduledId ≠ sid) :
    m ∈ (markMessageFailed db sid err).messages :=
  List.mem_map.mpr ⟨m, hm, by simp [hne]⟩

theorem dispatchOne_untouched (db0 : DripDB) (gw : String → String → GwResult)
    (now : Nat) (acc : DripDB × Nat × Nat) (hd m : SchedMsg)
    (hm : m ∈ acc.1.messages) (hne : m.scheduledId ≠ hd.scheduledId) :
    m ∈ (dispatchOne db0 gw now acc hd).1.messages := by
  unfold dispatchOne
  dsimp only
  repeat' split
  all_goals first
    | exact hm
    | exact mem_markMessageSent_of_ne _ _ _ _ m hm hne
    | exact mem_markMessageFailed_of_ne _ _ _ m hm hne

theorem processLoop_untouched (db0 : DripDB) (gw : String → String → GwResult)
    (now : Nat) :
    ∀ (l : List SchedMsg) (acc : DripDB × Nat × Nat) (m : SchedMsg),
      m ∈ acc.1.messages → (∀ hd ∈ l, m.scheduledId ≠ hd.scheduledId) →
      m ∈ (l.foldl (dispatchOne db0 gw now) acc).1.messages := by
  intro l
  induction l with
  | nil => intro acc m hm _; exact hm
  | cons hd rest ih =>
    intro acc m hm hall
    exact ih (dispatchOne db0 gw now acc hd) m
      (dispatchOne_untouched db0 gw now acc hd m hm (hall hd (by simp)))
      (fun x hx => hall x (by simp [hx]))

theorem markMessageSent_ids (db : DripDB) (sid now : Nat)
    (waId : Option String) :
    ((markMessageSent db sid waId now).messages.map fun m => m.scheduledId) =
      db.messages.map fun m => m.scheduledId := by
  unfold markMessageSent
  rw [List.map_map]
  refine List.map_congr_left ?_
  intro a _
  by_cases h : a.scheduledId = sid <;> simp [h]

theorem markMessageFailed_ids (db : DripDB) (sid : Nat) (err : String) :
    ((markMessageFailed db sid err).messages.map fun m => m.scheduledId) =
      db.messages.map fun m => m.scheduledId := by
  unfold markMessageFailed
  rw [List.map_map]
  refine List.map_congr_left ?_
  intro a _
  by_cases h : a.scheduledId = sid <;> simp [h]

theorem dispatchOne_ids (db0 : DripDB) (gw : String → String → GwResult)
    (now : Nat) (acc : DripDB × Nat × Nat) (hd : SchedMsg) :
    ((dispatchOne db0 gw now acc hd).1.messages.map fun m => m.scheduledId) =
      acc.1.messages.map fun m => m.scheduledId := by
  unfold dispatchOne
  dsimp only
  repeat' split
  all_goals first
    | rfl
    | exact markMessageSent_ids _ _ _ _
    | exact markMessageFailed_ids _ _ _

theorem processLoop_ids (db0 : DripDB) (gw : String → String → GwResult)
    (now : Nat) :
    ∀ (l : List SchedMsg) (acc : DripDB × Nat × Nat),
      ((l.foldl (dispatchOne db0 gw now) acc).1.messages.map
        fun m => m.scheduledId) =
        acc.1.messages.map fun m => m.scheduledId := by
  intro l
  induction l with
  | nil => intro acc; rfl
  | cons hd rest ih =>
    intro acc
    rw [List.foldl_cons, ih, dispatchOne_ids]

theorem resumeDripForLead_messages (db : DripDB) (lid : Nat)
    (aid : Option Nat) :
    (resumeDripForLead db lid aid).messages = db.messages := by
  unfold resumeDripForLead
  split <;> rfl

theorem resumeDripForLead_leads (db : DripDB) (lid : Nat) (aid : Option Nat) :
    (resumeDripForLead db lid aid).leads = db.leads := by
  unfold resumeDripForLead
  split <;> rfl

theorem resumeDripForLead_messageMaster (db : DripDB) (lid : Nat)
    (aid : Option Nat) :
    (resumeDripForLead db lid aid).messageMaster = db.messageMaster := by
  unfold resumeDripForLead
  split <;> rfl

/-- C3: (1) the due-query selects exactly the messages with status pending,
`scheduledAt ≤ now` and an active owning assignment (under the schema's
foreign keys, which make the query's joins on Leads/MessageMaster total);
(2) a dispatch run never marks `sent` any message outside that selection —
so never a future-scheduled message and never one whose owning assignment is
paused or stopped; (3) after `resume`, a past-due pending message under the
previously paused assignment is selected by the very next run. -/
theorem dispatch_eligibility_and_resume :
    (∀ (db : DripDB) (now : Nat) (m : SchedMsg), refIntact db →
      (m ∈ getPendingMessagesToSend db now ↔
        m ∈ db.messages ∧ m.status = MStatus.pending ∧ m.scheduledAt ≤ now ∧
          assignmentActiveFor db m)) ∧
    (∀ (db : DripDB) (now : Nat) (gw : String → String → GwResult)
      (m m' : SchedMsg),
      (db.messages.map fun x => x.scheduledId).Nodup →
      m ∈ db.messages → m.status ≠ MStatus.sent →
      m' ∈ (processPendingMessages db now gw).1.messages →
      m'.scheduledId = m.scheduledId → m'.status = MStatus.sent →
      m.status = MStatus.pending ∧ m.scheduledAt ≤ now ∧
        assignmentActiveFor db m) ∧
    (∀ (db : DripDB) (lid now2 : Nat) (a : Assignment) (m : SchedMsg),
      a ∈ db.assignments → a.leadId = lid → a.status = AStatus.paused →
      m ∈ db.messages → m.assignmentId = a.assignmentId →
      m.status = MStatus.pending → m.scheduledAt ≤ now2 →
      (∃ l ∈ db.leads, l.leadId = m.leadId) →
      (∃ mm ∈ db.messageMaster, mm.messageId = m.messageId) →
      m ∈ getPendingMessagesToSend (resumeDripForLead db lid none) now2) := by
  refine ⟨?_, ?_, ?_⟩
  · intro db now m hRI
    exact mem_getPendingMessagesToSend_iff db now m hRI
  · intro db now gw m m' hNodup hm hmsent hm' hid hsent'
    by_cases hin : m.scheduledId ∈
        ((getPendingMessagesToSend db now).map fun x => x.scheduledId)
    · obtain ⟨ms, hms, hmsid⟩ := List.mem_map.mp hin
      have hmsdb : ms ∈ db.messages := (List.mem_filter.mp hms).1
      have : ms = m := List.inj_on_of_nodup_map hNodup hmsdb hm hmsid
      subst this
      obtain ⟨_, hp, hs, ha⟩ := mem_getPending_props db now ms hms
      exact ⟨hp, hs, ha⟩
    · exfalso
      have hall : ∀ hd ∈ getPendingMessagesToSend db now,
          m.scheduledId ≠ hd.scheduledId := by
        intro hd hhd heq
        exact hin (List.mem_map.mpr ⟨hd, hhd, heq.symm⟩)
      have hmfinal : m ∈ (processPendingMessages db now gw).1.messages :=
        processLoop_untouched db gw now (getPendingMessagesToSend db now)
          (db, 0, 0) m hm hall
      have hidsfinal :
          ((processPendingMessages db now gw).1.messages.map
            fun x => x.scheduledId) = db.messages.map fun x => x.scheduledId :=
        processLoop_ids db gw now (getPendingMessagesToSend db now) (db, 0, 0)
      have hNodupFinal :
          ((processPendingMessages db now gw).1.messages.map
            fun x => x.scheduledId).Nodup := by
        rw [hidsfinal]; exact hNodup
      have : m' = m :=
        List.inj_on_of_nodup_map hNodupFinal hm' hmfinal hid
      subst this
      exact hmsent hsent'
  · intro db lid now2 a m ha hlid hpaused hm haid hpend hsched hlead hmm
    unfold getPendingMessagesToSend
    rw [List.mem_filter]
    refine ⟨by rw [resumeDripForLead_messages]; exact hm, ?_⟩
    simp only [Bool.and_eq_true, beq_iff_eq, decide_eq_true_eq,
      List.any_eq_true]
    obtain ⟨l, hl, hleq⟩ := hlead
    obtain ⟨mm, hmmmem, hmmeq⟩ := hmm
    refine ⟨⟨⟨⟨hpend, hsched⟩, ?_⟩, ?_⟩, ?_⟩
    · refine ⟨{ a with status := AStatus.active, pausedAt := none }, ?_, ?_, rfl⟩
      · unfold resumeDripForLead
        simp only [optTruthy, Bool.false_eq_true, if_false]
        exact List.mem_map.mpr ⟨a, ha, by simp [hlid, hpaused]⟩
      · exact haid.symm
    · rw [resumeDripForLead_messageMaster]
      exact ⟨mm, hmmmem, hmmeq⟩
    · rw [resumeDripForLead_leads]
      exact ⟨l, hl, hleq⟩

def c3DB : DripDB :=
  { dripMessages := [],
    assignments := [{ assignmentId := 1, leadId := 7, dripId := 3,
                      status := AStatus.paused, startedAt := some 0,
                      pausedAt := some 5, stoppedAt := none }],
    messages := [{ scheduledId := 1, assignmentId := 1, leadId := 7,
                   dripMessageId := 1, messageId := 9, scheduledAt := 50,
                   status := MStatus.pending, sentAt := none,
                   waMessageId := none, errorMessage := none }],
    leads := [{ leadId := 7, phone := some "9876543210", name := none,
                company := none, whatsAppConfirmed := false,
                statusCode := "new" }],
    messageMaster := [{ messageId := 9, messageType := "text",
                        body := some "Hi", title := none }],
    nextAssignmentId := 2, nextScheduledId := 2 }

theorem dispatch_eligibility_and_resume_witness :
    ({ scheduledId := 1, assignmentId := 1, leadId := 7, dripMessageId := 1,
       messageId := 9, scheduledAt := 50, status := MStatus.pending,
       sentAt := none, waMessageId := none, errorMessage := none } : SchedMsg)
      ∈ getPendingMessagesToSend (resumeDripForLead c3DB 7 none) 100 :=
  dispatch_eligibility_and_resume.2.2 c3DB 7 100
    { assignmentId := 1, leadId := 7, dripId := 3, status := AStatus.paused,
      startedAt := some 0, pausedAt := some 5, stoppedAt := none }
    { scheduledId := 1, assignmentId := 1, leadId := 7, dripMessageId := 1,
      messageId := 9, scheduledAt := 50, status := MStatus.pending,
      sentAt := none, waMessageId := none, errorMessage := none }
    (by decide) rfl rfl (by decide) rfl rfl (by decide)
    ⟨{ leadId := 7, phone := some "9876543210", name := none, company := none,
       whatsAppConfirmed := false, statusCode := "new" }, by decide, rfl⟩
    ⟨{ messageId := 9, messageType := "text", body := some "Hi",
       title := none }, by decide, rfl⟩

end ELCS
